import Mathlib

/-!
# Verification of the derived-metrics and aggregation engine of
# `app_consumo_rocadeira.py`

Shallow embedding of the core logic of the fuel-consumption application:
the unit converter (`to_m2`), the cost resolver (`compute_costs`), the
per-record derived-metrics pipeline (`add_derivatives`), and the
aggregations of the reports tab (monthly consolidation, per-equipment
consolidation, efficiency ranking, real-vs-rated comparison) together
with the dashboard summary statistics.

The source operates on pandas `float64` columns.  A cell of such a column
is either an ordinary number, `+inf`/`-inf` (produced by division by
zero), or `NaN` (the missing-value marker).  We model a cell by the type
`PFloat` below: a rational number (`fin q`), positive or negative
infinity, or `nan`.  Arithmetic on `PFloat` follows the IEEE-754 special
value rules used by numpy/pandas (`x/0 = ±inf` for `x ≠ 0`, `0/0 = NaN`,
`NaN` propagates, `inf - inf = NaN`, ...), with the finite arithmetic
itself taken exact over `ℚ` (all the values in the claims are exactly
representable, so no rounding of finite intermediates is involved).
-/

/-- A pandas `float64` cell: a finite (rational-modelled) number, one of
the two infinities produced by division by zero, or `NaN`, which doubles
as the missing-value marker of a float column. -/
inductive PFloat : Type where
  | nan : PFloat
  | inf : PFloat
  | ninf : PFloat
  | fin : ℚ → PFloat
deriving DecidableEq, Repr

namespace PFloat

/-- `NaN` test (`pandas.isna` on a float cell). -/
def isNaN : PFloat → Bool
  | nan => true
  | _ => false

/-- `numpy.isfinite`. -/
def isFinite : PFloat → Bool
  | fin _ => true
  | _ => false

/-- The elementwise comparison `x > 0` of numpy (`NaN > 0` is `false`,
`inf > 0` is `true`). -/
def gt0 : PFloat → Bool
  | nan => false
  | inf => true
  | ninf => false
  | fin q => decide (0 < q)

/-- IEEE negation. -/
def neg : PFloat → PFloat
  | nan => nan
  | inf => ninf
  | ninf => inf
  | fin q => fin (-q)

/-- IEEE addition with exact finite arithmetic. -/
def add : PFloat → PFloat → PFloat
  | nan, _ => nan
  | _, nan => nan
  | inf, ninf => nan
  | ninf, inf => nan
  | inf, _ => inf
  | ninf, _ => ninf
  | fin _, inf => inf
  | fin _, ninf => ninf
  | fin a, fin b => fin (a + b)

/-- IEEE subtraction, `a - b = a + (-b)`. -/
def sub (a b : PFloat) : PFloat := add a (neg b)

/-- IEEE multiplication with exact finite arithmetic
(`inf * 0 = NaN`). -/
def mul : PFloat → PFloat → PFloat
  | nan, _ => nan
  | _, nan => nan
  | inf, inf => inf
  | inf, ninf => ninf
  | ninf, inf => ninf
  | ninf, ninf => inf
  | inf, fin q => if q = 0 then nan else if 0 < q then inf else ninf
  | ninf, fin q => if q = 0 then nan else if 0 < q then ninf else inf
  | fin q, inf => if q = 0 then nan else if 0 < q then inf else ninf
  | fin q, ninf => if q = 0 then nan else if 0 < q then ninf else inf
  | fin a, fin b => fin (a * b)

/-- IEEE division with exact finite arithmetic: `a/0` is `±inf` for
`a ≠ 0` and `NaN` for `a = 0`; `±inf/±inf = NaN`; `finite/±inf = 0`. -/
def div : PFloat → PFloat → PFloat
  | nan, _ => nan
  | _, nan => nan
  | inf, inf => nan
  | inf, ninf => nan
  | ninf, inf => nan
  | ninf, ninf => nan
  | inf, fin q => if 0 ≤ q then inf else ninf
  | ninf, fin q => if 0 ≤ q then ninf else inf
  | fin _, inf => fin 0
  | fin _, ninf => fin 0
  | fin a, fin b =>
      if b = 0 then (if a = 0 then nan else if 0 < a then inf else ninf)
      else fin (a / b)

/-- `sum` with `skipna=True` and the default `min_count=0`, exactly as
pandas `Series.sum`/`GroupBy.sum` compute it: `NaN` cells are skipped and
the remaining cells are added starting from `0.0`; an all-`NaN` (or
empty) input therefore yields `0.0`, not `NaN`. -/
def nansum (l : List PFloat) : PFloat :=
  (l.filter (fun x => !x.isNaN)).foldl add (fin 0)

/-- `mean` with `skipna=True`, as pandas computes it: the mean of the
non-`NaN` cells, and `NaN` when there is no non-`NaN` cell. -/
def nanmean (l : List PFloat) : PFloat :=
  let v := l.filter (fun x => !x.isNaN)
  if v.isEmpty then nan else (v.foldl add (fin 0)).div (fin v.length)

end PFloat

/-- Round half to even (the rounding used by Python's `round` and
`numpy.round`). -/
def rhe (q : ℚ) : ℤ :=
  if q - ⌊q⌋ < 1/2 then ⌊q⌋
  else if 1/2 < q - ⌊q⌋ then ⌊q⌋ + 1
  else if ⌊q⌋ % 2 = 0 then ⌊q⌋ else ⌊q⌋ + 1

/-- `round(x, 1)` on an exact rational. -/
def round1q (q : ℚ) : ℚ := (rhe (q * 10) : ℚ) / 10

/-- `numpy.round(x, 1)` on a cell: `NaN` and the infinities pass
through. -/
def PFloat.round1 : PFloat → PFloat
  | PFloat.nan => PFloat.nan
  | PFloat.inf => PFloat.inf
  | PFloat.ninf => PFloat.ninf
  | PFloat.fin q => PFloat.fin (round1q q)

/-- `M2_PER_HA = 10_000.0`. -/
def M2_PER_HA : ℚ := 10000

/-- A calendar date (`datetime.date`). -/
structure Date where
  year : Nat
  month : Nat
  day : Nat
deriving DecidableEq, Repr

/-- Zero-padding to two digits, as `strftime` does for `%m`. -/
def pad2 (n : Nat) : String := if n < 10 then "0" ++ toString n else toString n

/-- `month_str(d) = pd.to_datetime(d).strftime("%Y-%m")`. -/
def month_str (d : Date) : String := toString d.year ++ "-" ++ pad2 d.month

/-- One row of the `abastecimentos` table (a fuel-log entry).  The SQL
schema makes `litros`, `horas`, `area_valor` and `area_unidade`
`NOT NULL`; `preco_por_litro` and `custo_total` are nullable `REAL`
columns, modelled by `Option ℚ`. -/
structure Entry where
  data : Date
  marca : String
  modelo : String
  equipamento : String
  litros : ℚ
  horas : ℚ
  area_valor : ℚ
  area_unidade : String
  preco_por_litro : Option ℚ
  custo_total : Option ℚ
  observacoes : String
deriving DecidableEq, Repr

/-- `to_m2(area_valor, area_unidade) =
area_valor * (M2_PER_HA if area_unidade == "ha" else 1.0)`. -/
def to_m2 (area_valor : ℚ) (area_unidade : String) : ℚ :=
  area_valor * (if area_unidade = "ha" then M2_PER_HA else 1)

/-- `compute_costs(litros, preco_por_litro, custo_total)`: the cost
resolver, called with Python `None` for a missing argument (as the
registration form does).  First `if` of the source: if `preco_por_litro`
is `None` and `custo_total` is not `None` and `litros > 0`, set
`preco_por_litro = custo_total / litros`.  Second `if`: if `custo_total`
is `None` and the (possibly just updated) `preco_por_litro` is not
`None`, set `custo_total = preco_por_litro * litros`. -/
def compute_costs (litros : ℚ) (preco_por_litro : Option ℚ)
    (custo_total : Option ℚ) : Option ℚ × Option ℚ :=
  let preco : Option ℚ :=
    match preco_por_litro, custo_total with
    | none, some c => if 0 < litros then some (c / litros) else none
    | p, _ => p
  let custo : Option ℚ :=
    match custo_total, preco with
    | none, some p => some (p * litros)
    | c, _ => c
  (preco, custo)

/-- The view of a nullable DB column inside the derived DataFrame: SQL
`NULL` becomes the float `NaN` of a `float64` column. -/
def toPF : Option ℚ → PFloat
  | none => PFloat.nan
  | some q => PFloat.fin q

/-- Python's `x is None` for a value drawn out of a `float64` DataFrame
column by a row-wise `apply`: such a value is a float object (`NaN` when
the cell is missing), never the object `None`, so the test is always
false. -/
def isNoneCell (_ : PFloat) : Prop := False

instance (x : PFloat) : Decidable (isNoneCell x) := isFalse (fun h => h)

/-- The row-wise `compute_costs(r["litros"], r["preco_por_litro"],
r["custo_total"])` call of `add_derivatives` (line 145-147 of the
source).  The arguments come out of `float64` columns, so the `is None`
guards of `compute_costs` compare a float (possibly `NaN`) against
`None` and are always false: neither branch fires and the pair is
returned unchanged. -/
def compute_costs_row (litros : ℚ) (ppl ct : PFloat) : PFloat × PFloat :=
  let ppl := if isNoneCell ppl ∧ ¬ isNoneCell ct ∧ 0 < litros
    then ct.div (PFloat.fin litros) else ppl
  let ct := if isNoneCell ct ∧ ¬ isNoneCell ppl
    then ppl.mul (PFloat.fin litros) else ct
  (ppl, ct)

/-- A row of the DataFrame produced by `add_derivatives`: the entry
columns plus `area_m2`, `L/h`, `L/m²`, `L/ha`, the (row-wise
recomputed) cost columns and `Custo/h`, `Custo/ha`. -/
structure Derived where
  entry : Entry
  area_m2 : ℚ
  lh : PFloat
  lm2 : PFloat
  lha : PFloat
  preco_por_litro : PFloat
  custo_total : PFloat
  custo_h : PFloat
  custo_ha : PFloat
deriving DecidableEq, Repr

/-- One row of `add_derivatives`:
`area_m2 = to_m2(area_valor, area_unidade)`;
`L/h = litros / horas`, `L/m² = litros / area_m2`,
`L/ha = litros / (area_m2 / M2_PER_HA)` — pandas `float64` division, so
a zero denominator yields `±inf` (or `NaN` for `0/0`); the
`.replace([pd.NA, pd.NaT], pd.NA)` calls of the source only map missing
values to missing values and are the identity on a float column;
then the cost columns through `compute_costs_row`, and
`Custo/h = custo_total / horas`,
`Custo/ha = custo_total / (area_m2 / M2_PER_HA)`. -/
def derive_row (e : Entry) : Derived :=
  let area_m2 := to_m2 e.area_valor e.area_unidade
  let costs := compute_costs_row e.litros (toPF e.preco_por_litro) (toPF e.custo_total)
  { entry := e
    area_m2 := area_m2
    lh := PFloat.div (PFloat.fin e.litros) (PFloat.fin e.horas)
    lm2 := PFloat.div (PFloat.fin e.litros) (PFloat.fin area_m2)
    lha := PFloat.div (PFloat.fin e.litros) (PFloat.fin (area_m2 / M2_PER_HA))
    preco_por_litro := costs.1
    custo_total := costs.2
    custo_h := PFloat.div costs.2 (PFloat.fin e.horas)
    custo_ha := PFloat.div costs.2 (PFloat.fin (area_m2 / M2_PER_HA)) }

/-- `add_derivatives`, row by row over the table. -/
def add_derivatives (l : List Entry) : List Derived := l.map derive_row

/-!
## The aggregations of the Dashboard and Relatórios tabs
-/

/-- The cost KPI of the dashboard (line 229 of the source): the sum of
`custo_total` is displayed only when `dfx["custo_total"].notna().any()`;
otherwise the KPI shows "–", i.e. it is absent. -/
def dashCusto (l : List PFloat) : Option PFloat :=
  if l.any (fun x => !x.isNaN) then some (PFloat.nansum l) else none

/-- The rows of the month bucket `k`. -/
def bucketM (l : List Derived) (k : String) : List Derived :=
  l.filter (fun d => month_str d.entry.data = k)

/-- The group keys of `dff.groupby("mes")`: the distinct month strings,
in ascending order (pandas groups with `sort=True` by default). -/
def monthKeys (l : List Derived) : List String :=
  List.insertionSort (fun a b => a ≤ b) (l.map (fun d => month_str d.entry.data)).dedup

/-- A row of the monthly consolidation table `agg`. -/
structure MRow where
  mes : String
  litros_total : ℚ
  horas_total : ℚ
  area_total_m2 : ℚ
  custo_total : PFloat
  lh_medio : PFloat
  lha_medio : PFloat
deriving DecidableEq, Repr

/-- `agg` of the Relatórios tab: group the derived rows by the month
string, and per group take the sums of `litros`, `horas`, `area_m2` and
`custo_total` (pandas `"sum"`, which skips `NaN` and yields `0.0` on an
all-`NaN` group) and the means of `L/h` and `L/ha` (pandas `"mean"`,
which skips `NaN` and yields `NaN` on an all-`NaN` group). -/
def consolidadoMensal (l : List Derived) : List MRow :=
  (monthKeys l).map (fun k =>
    let g := bucketM l k
    { mes := k
      litros_total := (g.map (fun d => d.entry.litros)).sum
      horas_total := (g.map (fun d => d.entry.horas)).sum
      area_total_m2 := (g.map (fun d => d.area_m2)).sum
      custo_total := PFloat.nansum (g.map (fun d => d.custo_total))
      lh_medio := PFloat.nanmean (g.map (fun d => d.lh))
      lha_medio := PFloat.nanmean (g.map (fun d => d.lha)) })

/-- The rows of the equipment group `(marca, modelo)`. -/
def bucketE (l : List Derived) (k : String × String) : List Derived :=
  l.filter (fun d => d.entry.marca = k.1 ∧ d.entry.modelo = k.2)

/-- Lexicographic order on `(marca, modelo)` keys, the order in which
pandas lists the groups of `groupby(["marca","modelo"])`. -/
def pairLE (a b : String × String) : Prop :=
  a.1 < b.1 ∨ (a.1 = b.1 ∧ a.2 ≤ b.2)

instance : DecidableRel pairLE := fun a b =>
  inferInstanceAs (Decidable (a.1 < b.1 ∨ (a.1 = b.1 ∧ a.2 ≤ b.2)))

/-- The group keys of `df.groupby(["marca","modelo"])`. -/
def equipKeys (l : List Derived) : List (String × String) :=
  List.insertionSort pairLE (l.map (fun d => (d.entry.marca, d.entry.modelo))).dedup

/-- A row of the per-equipment consolidation table `ge`. -/
structure GRow where
  marca : String
  modelo : String
  abastecimentos : Nat
  litros : ℚ
  horas : ℚ
  area_m2 : ℚ
  custo_total : PFloat
  l_h_medio : PFloat
  l_ha_medio : PFloat
deriving DecidableEq, Repr

/-- `ge` of the Relatórios tab: group by `(marca, modelo)`, count the
rows (`("id","count")`), and take the same sums and means as the monthly
consolidation. -/
def porEquipamento (l : List Derived) : List GRow :=
  (equipKeys l).map (fun k =>
    let g := bucketE l k
    { marca := k.1
      modelo := k.2
      abastecimentos := g.length
      litros := (g.map (fun d => d.entry.litros)).sum
      horas := (g.map (fun d => d.entry.horas)).sum
      area_m2 := (g.map (fun d => d.area_m2)).sum
      custo_total := PFloat.nansum (g.map (fun d => d.custo_total))
      l_h_medio := PFloat.nanmean (g.map (fun d => d.lh))
      l_ha_medio := PFloat.nanmean (g.map (fun d => d.lha)) })

/-!
## Efficiency ranking

`rank = df.sort_values("L/ha").head(50)`: `sort_values` sorts ascending
with `na_position="last"`, i.e. the non-`NaN` keys in their numeric order
(`-inf < finite < +inf`) followed by the `NaN` keys.  We realise this
order as the total preorder induced by `sortKey` below, under which `NaN`
is the top element, and embed the sort as an insertion sort with respect
to it (the claims under verification do not depend on which comparison
sort is used). -/

/-- Sort key of a cell: `-inf`, then finite values by magnitude, then
`+inf`, then `NaN` last. -/
def PFloat.sortKey : PFloat → Lex (ℕ × ℚ)
  | PFloat.ninf => toLex (0, 0)
  | PFloat.fin q => toLex (1, q)
  | PFloat.inf => toLex (2, 0)
  | PFloat.nan => toLex (3, 0)

/-- The sort order of `sort_values("L/ha")`. -/
def lhaLE (a b : Derived) : Prop := a.lha.sortKey ≤ b.lha.sortKey

instance : DecidableRel lhaLE := fun a b =>
  inferInstanceAs (Decidable (a.lha.sortKey ≤ b.lha.sortKey))

instance : IsTotal Derived lhaLE := ⟨fun a b => le_total a.lha.sortKey b.lha.sortKey⟩

instance : IsTrans Derived lhaLE := ⟨fun _ _ _ hab hbc => le_trans hab hbc⟩

/-- `rank`: the derived rows sorted ascending by `L/ha` with `NaN` last,
truncated to the first 50 (`head(50)`). -/
def rank (l : List Derived) : List Derived :=
  (List.insertionSort lhaLE l).take 50

/-!
## Real-vs-rated comparison
-/

/-- A row of the `modelos` catalog table; `consumo_fabricante_l_h` is a
nullable `REAL` column. -/
structure Modelo where
  marca : String
  modelo : String
  consumo_fabricante_l_h : Option ℚ
deriving DecidableEq, Repr

/-- The percent-difference computation of the comparison table (lines
326-329 of the source): `dif = (real_Lh - fab_Lh) / fab_Lh`, kept (times
100) only where `fab_Lh > 0` and `dif` is finite, `NaN` elsewhere, then
`numpy.round(-, 1)`. -/
def comp_dif (real fab : PFloat) : PFloat :=
  let dif := PFloat.div (PFloat.sub real fab) fab
  let dif2 := if fab.gt0 && dif.isFinite then dif.mul (PFloat.fin 100) else PFloat.nan
  dif2.round1

/-- A row of the comparison table `comp`. -/
structure CRow where
  marca : String
  modelo : String
  real_Lh : PFloat
  fab_Lh : PFloat
  dif : PFloat
deriving DecidableEq, Repr

/-- `comp` of the Relatórios tab: left-merge the derived rows with the
catalog on `(marca, modelo)`, group by `(marca, modelo)`, take the mean
`L/h` as `real_Lh` and the first catalog value as `fab_Lh` (`NaN` when
the model is not in the catalog or has no rated consumption), and attach
the guarded percent difference.  Every group of the fuel log appears,
whether or not the catalog knows it. -/
def comp_table (l : List Derived) (cat : List Modelo) : List CRow :=
  (equipKeys l).map (fun k =>
    let g := bucketE l k
    let real := PFloat.nanmean (g.map (fun d => d.lh))
    let fab := toPF ((cat.find? (fun c =>
      c.marca = k.1 ∧ c.modelo = k.2)).bind (fun c => c.consumo_fabricante_l_h))
    { marca := k.1
      modelo := k.2
      real_Lh := real
      fab_Lh := fab
      dif := comp_dif real fab })

/-!
## Concrete records used by the witnesses and counterexamples
-/

/-- Fuel-log entry `{date: 2024-01-05, litres: 10, hours: 2, area: 1 ha}`. -/
def e1 : Entry :=
  ⟨⟨2024, 1, 5⟩, "Stihl", "FS55", "Roçadeira", 10, 2, 1, "ha", none, none, ""⟩

/-- Fuel-log entry `{date: 2024-01-20, litres: 20, hours: 4, area: 2 ha}`. -/
def e2 : Entry :=
  ⟨⟨2024, 1, 20⟩, "Stihl", "FS55", "Roçadeira", 20, 4, 2, "ha", none, none, ""⟩

/-- A fuel-log entry with `horas = 0` and `litros = 10` (such rows enter
the table through the spreadsheet import path, which does not validate). -/
def eZeroH : Entry :=
  ⟨⟨2024, 2, 10⟩, "Stihl", "FS55", "Roçadeira", 10, 0, 100, "m2", none, none, ""⟩

/-- A fuel-log entry with `horas = 0` and `litros = 0`. -/
def eZZ : Entry :=
  ⟨⟨2024, 2, 11⟩, "Stihl", "FS55", "Roçadeira", 0, 0, 100, "m2", none, none, ""⟩

/-- A fuel-log entry with both cost fields absent. -/
def eNoCost : Entry :=
  ⟨⟨2024, 3, 10⟩, "Husqvarna", "143R", "Roçadeira", 5, 1, 100, "m2", none, none, ""⟩

/-!
## Claims
-/

/-- **C6**: `to_m2` multiplies by 10,000 for hectares (`"ha"`) and is the
identity for square metres (`"m2"`); in particular `to_m2 5 "ha" = 50000`
and `to_m2 50000 "m2" = 50000`. -/
theorem to_m2_spec :
    (∀ v : ℚ, to_m2 v "ha" = v * 10000) ∧
    (∀ v : ℚ, to_m2 v "m2" = v) ∧
    to_m2 5 "ha" = 50000 ∧ to_m2 50000 "m2" = 50000 := by
  refine ⟨fun v => ?_, fun v => ?_, by norm_num [to_m2, M2_PER_HA], ?_⟩
  · simp [to_m2, M2_PER_HA]
  · simp only [to_m2]
    rw [if_neg (by decide)]
    ring
  · simp only [to_m2]
    rw [if_neg (by decide)]
    norm_num

/-- **C9**: `to_m2` treats every unit string other than `"ha"` as square
metres and returns the value unchanged, without error. -/
theorem to_m2_other_units (v : ℚ) (u : String) (h : u ≠ "ha") : to_m2 v u = v := by
  simp [to_m2, h]

/-- Witness for `to_m2_other_units` at the unrecognized unit `"acre"`. -/
theorem to_m2_other_units_witness : to_m2 7 "acre" = 7 :=
  to_m2_other_units 7 "acre" (by decide)

/-- **C10**: `compute_costs` never modifies a supplied value: when both
`preco_por_litro` and `custo_total` are present the pair is returned
unchanged, with no consistency check between `custo_total` and
`preco_por_litro * litros`. -/
theorem compute_costs_frame (litros p c : ℚ) :
    compute_costs litros (some p) (some c) = (some p, some c) := rfl

/-- **C3**: the cost resolver applies its two rules in order: a missing
unit price is derived from a present total cost when `litros > 0`; then a
missing total cost is derived from the (original or just derived) unit
price; both absent stays both absent; `litros = 0` with only a total cost
leaves the unit price absent.  Concretely
`compute_costs 10 None 25 = (2.5, 25)`,
`compute_costs 10 2.5 None = (2.5, 25)` and
`compute_costs 10 None None = (None, None)`. -/
theorem compute_costs_spec :
    (∀ litros c : ℚ, 0 < litros →
        compute_costs litros none (some c) = (some (c / litros), some c)) ∧
    (∀ litros p : ℚ, compute_costs litros (some p) none = (some p, some (p * litros))) ∧
    (∀ litros : ℚ, compute_costs litros none none = (none, none)) ∧
    (∀ c : ℚ, compute_costs 0 none (some c) = (none, some c)) ∧
    compute_costs 10 none (some 25) = (some (5/2), some 25) ∧
    compute_costs 10 (some (5/2)) none = (some (5/2), some 25) ∧
    compute_costs 10 none none = (none, none) := by
  refine ⟨fun litros c h => ?_, fun litros p => rfl, fun litros => rfl,
    fun c => ?_, by norm_num [compute_costs], by norm_num [compute_costs], rfl⟩
  · simp [compute_costs, h]
  · norm_num [compute_costs]

/-- Witness for `compute_costs_spec`: the first rule at
`litros = 10`, `custo_total = 25`. -/
theorem compute_costs_spec_witness :
    compute_costs 10 none (some 25) = (some (25 / 10), some 25) :=
  compute_costs_spec.1 10 25 (by norm_num)

/-- **C5**: for an entry with `litros > 0` and `horas > 0`,
`add_derivatives` computes `L/h = litros / horas`. -/
theorem add_derivatives_lh (e : Entry) (_hl : 0 < e.litros) (hh : 0 < e.horas) :
    (add_derivatives [e]).map (fun d => d.lh) = [PFloat.fin (e.litros / e.horas)] := by
  simp [add_derivatives, derive_row, PFloat.div, hh.ne']

/-- Witness for `add_derivatives_lh` at `e1` (10 litres over 2 hours). -/
theorem add_derivatives_lh_witness :
    (add_derivatives [e1]).map (fun d => d.lh) = [PFloat.fin 5] := by
  have h := add_derivatives_lh e1 (by norm_num [e1]) (by norm_num [e1])
  simpa [e1, show (10 : ℚ) / 2 = 5 by norm_num] using h

/-- **C1 counterexample**: for the entry `eZeroH` (`horas = 0`,
`litros = 10`) the `L/h` value produced by `add_derivatives` is `+inf`,
not an absent (`NaN`) cell: pandas float division by zero yields
infinity, and the `.replace` call does not remove it. -/
theorem lh_zero_horas_not_absent :
    (add_derivatives [eZeroH]).map (fun d => d.lh) = [PFloat.inf] ∧
    PFloat.inf ≠ PFloat.nan := by
  constructor
  · decide
  · decide

/-- **C1 (amended)**: for an entry with `horas = 0` the `L/h` cell of
`add_derivatives` is `NaN` (absent) only when `litros = 0` as well; for
`litros > 0` it is `+inf` and for `litros < 0` it is `-inf`.  No
exception is raised in either case. -/
theorem lh_zero_horas (e : Entry) (h : e.horas = 0) :
    (add_derivatives [e]).map (fun d => d.lh) =
      [if e.litros = 0 then PFloat.nan
       else if 0 < e.litros then PFloat.inf else PFloat.ninf] := by
  simp [add_derivatives, derive_row, PFloat.div, h]

/-- Witness for `lh_zero_horas` at `eZZ` (`litros = 0`, `horas = 0`):
the quotient `0/0` is `NaN`. -/
theorem lh_zero_horas_witness :
    (add_derivatives [eZZ]).map (fun d => d.lh) = [PFloat.nan] := by
  have h := lh_zero_horas eZZ (by decide)
  simpa [eZZ] using h

/-- The monthly-consolidation row produced for `eNoCost`. -/
def mRowNoCost : MRow :=
  ⟨"2024-03", 5, 1, 100, PFloat.fin 0, PFloat.fin 5, PFloat.fin 500⟩

/-- The per-equipment row produced for `eNoCost`. -/
def gRowNoCost : GRow :=
  ⟨"Husqvarna", "143R", 1, 5, 1, 100, PFloat.fin 0, PFloat.fin 5, PFloat.fin 500⟩

/-- The monthly-consolidation row produced for `[e1, e2]`. -/
def m24 : MRow :=
  ⟨"2024-01", 30, 6, 30000, PFloat.fin 0, PFloat.fin 5, PFloat.fin 10⟩

/-- Evaluation of the unit converter at the unit tag `"m2"`. -/
theorem to_m2_m2v (v : ℚ) : to_m2 v "m2" = v := by
  simp only [to_m2]
  rw [if_neg (by decide)]
  ring

/-- Evaluation of the unit converter at the unit tag `"ha"`. -/
theorem to_m2_hav (v : ℚ) : to_m2 v "ha" = v * 10000 := by
  simp [to_m2, M2_PER_HA]

/-- Evaluation of `derive_row` on `eNoCost`. -/
theorem derive_eNoCost : derive_row eNoCost =
    ⟨eNoCost, 100, PFloat.fin 5, PFloat.fin (1/20), PFloat.fin 500,
     PFloat.nan, PFloat.nan, PFloat.nan, PFloat.nan⟩ := by
  norm_num [derive_row, eNoCost, to_m2_m2v, compute_costs_row, isNoneCell, toPF,
    PFloat.div, M2_PER_HA, Derived.mk.injEq]

/-- The month keys of the one-record table of `eNoCost`. -/
theorem keys_eNoCost : monthKeys (add_derivatives [eNoCost]) = ["2024-03"] := by decide

/-- The `"2024-03"` bucket of the one-record table of `eNoCost`. -/
theorem bucket_eNoCost :
    bucketM (add_derivatives [eNoCost]) "2024-03" = add_derivatives [eNoCost] := by
  rw [bucketM, List.filter_eq_self]
  decide

/-- The monthly consolidation of the one-record table of `eNoCost`. -/
theorem consolidado_eNoCost :
    consolidadoMensal (add_derivatives [eNoCost]) = [mRowNoCost] := by
  rw [consolidadoMensal, keys_eNoCost]
  simp only [List.map_cons, List.map_nil, bucket_eNoCost]
  simp only [add_derivatives, List.map_cons, List.map_nil, derive_eNoCost]
  norm_num [PFloat.nansum, PFloat.nanmean, PFloat.add, PFloat.div, PFloat.isNaN,
    List.filter, List.foldl, List.isEmpty, MRow.mk.injEq, mRowNoCost, eNoCost]

/-- The equipment keys of the one-record table of `eNoCost`. -/
theorem keysE_eNoCost :
    equipKeys (add_derivatives [eNoCost]) = [("Husqvarna", "143R")] := by decide

/-- The `("Husqvarna", "143R")` bucket of the one-record table of
`eNoCost`. -/
theorem bucketE_eNoCost :
    bucketE (add_derivatives [eNoCost]) ("Husqvarna", "143R") =
      add_derivatives [eNoCost] := by
  rw [bucketE, List.filter_eq_self]
  decide

/-- The per-equipment consolidation of the one-record table of
`eNoCost`. -/
theorem porEquip_eNoCost :
    porEquipamento (add_derivatives [eNoCost]) = [gRowNoCost] := by
  rw [porEquipamento, keysE_eNoCost]
  simp only [List.map_cons, List.map_nil, bucketE_eNoCost]
  simp only [add_derivatives, List.map_cons, List.map_nil, derive_eNoCost]
  norm_num [PFloat.nansum, PFloat.nanmean, PFloat.add, PFloat.div, PFloat.isNaN,
    List.filter, List.foldl, List.isEmpty, GRow.mk.injEq, gRowNoCost, eNoCost]

/-- Evaluation of `derive_row` on `e1`. -/
theorem derive_e1 : derive_row e1 =
    ⟨e1, 10000, PFloat.fin 5, PFloat.fin (1/1000), PFloat.fin 10,
     PFloat.nan, PFloat.nan, PFloat.nan, PFloat.nan⟩ := by
  norm_num [derive_row, e1, to_m2_hav, compute_costs_row, isNoneCell, toPF,
    PFloat.div, M2_PER_HA, Derived.mk.injEq]

/-- Evaluation of `derive_row` on `e2`. -/
theorem derive_e2 : derive_row e2 =
    ⟨e2, 20000, PFloat.fin 5, PFloat.fin (1/1000), PFloat.fin 10,
     PFloat.nan, PFloat.nan, PFloat.nan, PFloat.nan⟩ := by
  norm_num [derive_row, e2, to_m2_hav, compute_costs_row, isNoneCell, toPF,
    PFloat.div, M2_PER_HA, Derived.mk.injEq]

/-- The month keys of the table of `[e1, e2]`. -/
theorem keys_e12 : monthKeys (add_derivatives [e1, e2]) = ["2024-01"] := by decide

/-- The `"2024-01"` bucket of the table of `[e1, e2]`. -/
theorem bucket_e12 :
    bucketM (add_derivatives [e1, e2]) "2024-01" = add_derivatives [e1, e2] := by
  rw [bucketM, List.filter_eq_self]
  decide

/-- The monthly consolidation of the table of `[e1, e2]`. -/
theorem consolidado_e12 : consolidadoMensal (add_derivatives [e1, e2]) = [m24] := by
  rw [consolidadoMensal, keys_e12]
  simp only [List.map_cons, List.map_nil, bucket_e12]
  simp only [add_derivatives, List.map_cons, List.map_nil, derive_e1, derive_e2]
  norm_num [PFloat.nansum, PFloat.nanmean, PFloat.add, PFloat.div, PFloat.isNaN,
    List.filter, List.foldl, List.isEmpty, MRow.mk.injEq, m24, e1, e2]

/-- **C2 counterexample**: for the single record `eNoCost`, whose
`custo_total` is absent, the monthly consolidation reports the group sum
of `custo_total` as `0.0`, not as an absent value: pandas `GroupBy.sum`
uses `min_count=0` and returns `0.0` for an all-`NaN` group. -/
theorem custo_sum_all_absent_zero :
    (add_derivatives [eNoCost]).map (fun d => d.custo_total) = [PFloat.nan] ∧
    (consolidadoMensal (add_derivatives [eNoCost])).map (fun r => r.custo_total) =
      [PFloat.fin 0] ∧
    PFloat.fin 0 ≠ PFloat.nan := by
  refine ⟨by decide, ?_, by decide⟩
  rw [consolidado_eNoCost]
  rfl

/-- **C2 (amended)**: every aggregation sums `totalCost` ignoring absent
values, but over an all-absent group the groupby-based consolidations
(monthly and per-equipment) yield the sum `0.0`, not an absent value;
only the dashboard summary reports the all-absent cost sum as absent,
through its `notna().any()` guard. -/
theorem custo_sum_spec :
    (∀ l : List PFloat, PFloat.nansum (PFloat.nan :: l) = PFloat.nansum l) ∧
    (∀ l : List PFloat, (∀ x ∈ l, x = PFloat.nan) → PFloat.nansum l = PFloat.fin 0) ∧
    (∀ l : List PFloat, (∀ x ∈ l, x = PFloat.nan) → dashCusto l = none) ∧
    (∀ (rows : List Derived) (r : MRow), r ∈ consolidadoMensal rows →
        r.custo_total =
          PFloat.nansum ((bucketM rows r.mes).map (fun d => d.custo_total))) ∧
    (∀ (rows : List Derived) (g : GRow), g ∈ porEquipamento rows →
        g.custo_total =
          PFloat.nansum ((bucketE rows (g.marca, g.modelo)).map (fun d => d.custo_total))) := by
  refine ⟨fun l => ?_, fun l h => ?_, fun l h => ?_, fun rows r hr => ?_, fun rows g hg => ?_⟩
  · simp [PFloat.nansum, PFloat.isNaN]
  · have hf : l.filter (fun x => !x.isNaN) = [] := by
      rw [List.filter_eq_nil_iff]
      intro x hx
      simp [h x hx, PFloat.isNaN]
    simp [PFloat.nansum, hf]
  · have ha : l.any (fun x => !x.isNaN) = false := by
      rw [List.any_eq_false]
      intro x hx
      simp [h x hx, PFloat.isNaN]
    simp [dashCusto, ha]
  · simp only [consolidadoMensal, List.mem_map] at hr
    obtain ⟨k, _, rfl⟩ := hr
    rfl
  · simp only [porEquipamento, List.mem_map] at hg
    obtain ⟨k, _, rfl⟩ := hg
    rfl

/-- Witness for `custo_sum_spec` at concrete inputs: the all-absent
list `[NaN]` and the table of the single record `eNoCost`. -/
theorem custo_sum_spec_witness :
    PFloat.nansum [PFloat.nan] = PFloat.fin 0 ∧
    dashCusto [PFloat.nan] = none ∧
    mRowNoCost.custo_total =
      PFloat.nansum ((bucketM (add_derivatives [eNoCost]) mRowNoCost.mes).map
        (fun d => d.custo_total)) ∧
    gRowNoCost.custo_total =
      PFloat.nansum ((bucketE (add_derivatives [eNoCost])
        (gRowNoCost.marca, gRowNoCost.modelo)).map (fun d => d.custo_total)) :=
  ⟨custo_sum_spec.2.1 [PFloat.nan] (by decide),
   custo_sum_spec.2.2.1 [PFloat.nan] (by decide),
   custo_sum_spec.2.2.2.1 (add_derivatives [eNoCost]) mRowNoCost
     (by rw [consolidado_eNoCost]; exact List.mem_singleton.mpr rfl),
   custo_sum_spec.2.2.2.2 (add_derivatives [eNoCost]) gRowNoCost
     (by rw [porEquip_eNoCost]; exact List.mem_singleton.mpr rfl)⟩

/-- The month column of the consolidation table is exactly the sorted
list of distinct month keys. -/
theorem consolidado_mes (l : List Derived) :
    (consolidadoMensal l).map (fun r => r.mes) = monthKeys l := by
  rw [consolidadoMensal, List.map_map]
  exact List.map_id _

/-- **C7**: the monthly consolidation buckets records by the `YYYY-MM`
month string of their date; each bucket row carries the sums of litres,
hours, area (m²) and cost and the means of `L/h` and `L/ha` over the
bucket; and on `[e1, e2]` it yields exactly the one bucket `"2024-01"`
with `litros_total = 30`, `horas_total = 6` and mean `L/h = 5`. -/
theorem consolidado_spec :
    (∀ (l : List Derived) (k : String),
        k ∈ (consolidadoMensal l).map (fun r => r.mes) ↔
          ∃ d ∈ l, month_str d.entry.data = k) ∧
    (∀ (l : List Derived) (r : MRow), r ∈ consolidadoMensal l →
        r.litros_total = ((bucketM l r.mes).map (fun d => d.entry.litros)).sum ∧
        r.horas_total = ((bucketM l r.mes).map (fun d => d.entry.horas)).sum ∧
        r.area_total_m2 = ((bucketM l r.mes).map (fun d => d.area_m2)).sum ∧
        r.custo_total = PFloat.nansum ((bucketM l r.mes).map (fun d => d.custo_total)) ∧
        r.lh_medio = PFloat.nanmean ((bucketM l r.mes).map (fun d => d.lh)) ∧
        r.lha_medio = PFloat.nanmean ((bucketM l r.mes).map (fun d => d.lha))) ∧
    consolidadoMensal (add_derivatives [e1, e2]) = [m24] := by
  refine ⟨fun l k => ?_, fun l r hr => ?_, consolidado_e12⟩
  · rw [consolidado_mes]
    simp [monthKeys, List.mem_dedup, List.mem_map]
  · simp only [consolidadoMensal, List.mem_map] at hr
    obtain ⟨k, _, rfl⟩ := hr
    exact ⟨rfl, rfl, rfl, rfl, rfl, rfl⟩

/-- Witness for `consolidado_spec` at the concrete table of `[e1, e2]`
and its bucket row `m24`. -/
theorem consolidado_spec_witness :
    m24.litros_total =
      ((bucketM (add_derivatives [e1, e2]) m24.mes).map (fun d => d.entry.litros)).sum ∧
    m24.horas_total =
      ((bucketM (add_derivatives [e1, e2]) m24.mes).map (fun d => d.entry.horas)).sum ∧
    m24.area_total_m2 =
      ((bucketM (add_derivatives [e1, e2]) m24.mes).map (fun d => d.area_m2)).sum ∧
    m24.custo_total =
      PFloat.nansum ((bucketM (add_derivatives [e1, e2]) m24.mes).map (fun d => d.custo_total)) ∧
    m24.lh_medio =
      PFloat.nanmean ((bucketM (add_derivatives [e1, e2]) m24.mes).map (fun d => d.lh)) ∧
    m24.lha_medio =
      PFloat.nanmean ((bucketM (add_derivatives [e1, e2]) m24.mes).map (fun d => d.lha)) :=
  consolidado_spec.2.1 (add_derivatives [e1, e2]) m24
    (by rw [consolidado_e12]; exact List.mem_singleton.mpr rfl)

/-- In the `sort_values("L/ha")` order an absent (`NaN`) key is never
below a row: anything ordered at or above a `NaN` row is itself `NaN`. -/
theorem lhaLE_nan_mono {a b : Derived} (h : lhaLE a b) (ha : a.lha.isNaN = true) :
    b.lha.isNaN = true := by
  have ha' : a.lha = PFloat.nan := by
    cases hx : a.lha <;> simp [hx, PFloat.isNaN] at ha ⊢
  unfold lhaLE at h
  rw [ha'] at h
  cases hb : b.lha
  case nan => simp [PFloat.isNaN]
  case ninf =>
    rw [hb] at h
    rcases (Prod.Lex.le_iff (3, 0) (0, 0)).mp h with h1 | ⟨h1, _⟩ <;> omega
  case inf =>
    rw [hb] at h
    rcases (Prod.Lex.le_iff (3, 0) (2, 0)).mp h with h1 | ⟨h1, _⟩ <;> omega
  case fin q =>
    rw [hb] at h
    rcases (Prod.Lex.le_iff (3, 0) (1, q)).mp h with h1 | ⟨h1, _⟩ <;> omega

/-- **C8**: the efficiency ranking returns at most 50 rows, sorted
ascending by `L/ha`; every row with an absent `L/ha` comes after every
row with a defined value (once a `NaN` key appears, all later keys are
`NaN`); and the ranking is the 50-prefix of a permutation of the whole
table, so no error occurs on absent values. -/
theorem rank_spec (l : List Derived) :
    (rank l).length ≤ 50 ∧
    List.Sorted lhaLE (rank l) ∧
    ((rank l).map (fun d => d.lha)).Pairwise
      (fun a b => a.isNaN = true → b.isNaN = true) ∧
    (List.insertionSort lhaLE l).Perm l ∧
    rank l = (List.insertionSort lhaLE l).take 50 := by
  have hsorted : List.Sorted lhaLE (List.insertionSort lhaLE l) :=
    List.sorted_insertionSort lhaLE l
  have htake : List.Sorted lhaLE (rank l) :=
    List.Pairwise.sublist (List.take_sublist 50 _) hsorted
  refine ⟨?_, htake, ?_, List.perm_insertionSort lhaLE l, rfl⟩
  · exact List.length_take_le 50 _
  · rw [List.pairwise_map]
    exact htake.imp (fun h ha => lhaLE_nan_mono h ha)

/-- **C4**: in the real-vs-rated comparison, `percentDifference` equals
`round(((real - rated)/rated)*100, 1)` exactly when `rated` is a defined,
strictly positive finite number and the quotient is finite (which, given
such a `rated`, happens exactly when `real` is finite); in every other
case it is `NaN` (absent).  The comparison table always has one row per
`(marca, modelo)` group of the fuel log, with its real mean `L/h`
populated, whether or not the catalog provides a rated consumption. -/
theorem comp_spec :
    (∀ r q : ℚ, 0 < q →
        comp_dif (PFloat.fin r) (PFloat.fin q) =
          PFloat.fin (round1q ((r - q) / q * 100))) ∧
    (∀ real fab : PFloat,
        (¬ ∃ r q : ℚ, real = PFloat.fin r ∧ fab = PFloat.fin q ∧ 0 < q) →
        comp_dif real fab = PFloat.nan) ∧
    (∀ (l : List Derived) (cat : List Modelo),
        (comp_table l cat).map (fun row => (row.marca, row.modelo)) = equipKeys l ∧
        (comp_table l cat).map (fun row => row.real_Lh) =
          (equipKeys l).map (fun k => PFloat.nanmean ((bucketE l k).map (fun d => d.lh)))) := by
  refine ⟨fun r q hq => ?_, fun real fab h => ?_, fun l cat => ⟨?_, ?_⟩⟩
  · simp [comp_dif, PFloat.sub, PFloat.neg, PFloat.add, PFloat.div, hq.ne',
      PFloat.gt0, hq, PFloat.isFinite, PFloat.mul, PFloat.round1, decide_eq_true_eq,
      ← sub_eq_add_neg]
  · push_neg at h
    cases real with
    | nan =>
      cases fab with
      | nan => rfl
      | inf => rfl
      | ninf => rfl
      | fin q =>
        simp [comp_dif, PFloat.sub, PFloat.neg, PFloat.add, PFloat.div,
          PFloat.isFinite, PFloat.gt0, PFloat.round1]
    | inf =>
      cases fab with
      | nan => rfl
      | inf => rfl
      | ninf => rfl
      | fin q =>
        rcases le_or_lt 0 q with h1 | h1
        · simp [comp_dif, PFloat.sub, PFloat.neg, PFloat.add, PFloat.div,
            PFloat.isFinite, PFloat.gt0, PFloat.round1, h1]
        · simp [comp_dif, PFloat.sub, PFloat.neg, PFloat.add, PFloat.div,
            PFloat.isFinite, PFloat.gt0, PFloat.round1, h1.not_le]
    | ninf =>
      cases fab with
      | nan => rfl
      | inf => rfl
      | ninf => rfl
      | fin q =>
        rcases le_or_lt 0 q with h1 | h1
        · simp [comp_dif, PFloat.sub, PFloat.neg, PFloat.add, PFloat.div,
            PFloat.isFinite, PFloat.gt0, PFloat.round1, h1]
        · simp [comp_dif, PFloat.sub, PFloat.neg, PFloat.add, PFloat.div,
            PFloat.isFinite, PFloat.gt0, PFloat.round1, h1.not_le]
    | fin r =>
      cases fab with
      | nan => rfl
      | inf => rfl
      | ninf => rfl
      | fin q =>
        have hq : ¬ (0:ℚ) < q := not_lt.mpr (h r q rfl rfl)
        by_cases h0 : q = 0
        · subst h0
          simp only [comp_dif, PFloat.sub, PFloat.neg, PFloat.add, PFloat.div]
          split_ifs <;> simp_all [PFloat.gt0, PFloat.isFinite, PFloat.round1]
        · simp [comp_dif, PFloat.sub, PFloat.neg, PFloat.add, PFloat.div, h0,
            PFloat.gt0, PFloat.isFinite, hq, PFloat.round1]
  · rw [comp_table, List.map_map]
    exact List.map_id _
  · rw [comp_table, List.map_map]
    rfl

/-- Witness for `comp_spec`: the spec example `real = 6.0`, `rated = 5.0`
gives `percentDifference = 20.0`, and an absent `rated` gives an absent
`percentDifference`. -/
theorem comp_spec_witness :
    comp_dif (PFloat.fin 6) (PFloat.fin 5) = PFloat.fin 20 ∧
    comp_dif (PFloat.fin 6) PFloat.nan = PFloat.nan := by
  constructor
  · have h := comp_spec.1 6 5 (by norm_num)
    rw [h]
    norm_num [round1q, rhe]
  · exact comp_spec.2.1 (PFloat.fin 6) PFloat.nan
      (fun ⟨_, _, _, hq, _⟩ => PFloat.noConfusion hq)
